import Mathlib

/-!
Verification of the managed-cluster validating-webhook test suite.

The development shallowly embeds the Go source of the suite
(package `webhooks`, plus the condition-wait engine and the
impersonation-client helper it delegates to) and proves the spec's
claims about it.  Pure functions of the source become Lean functions;
the shared mutable `helper.H` value becomes explicit state passing;
fallible remote calls become oracle functions returning `Option ApiError`.
-/

namespace Webhooks

/- ----------------------------------------------------------------- -/
/- Data model                                                         -/
/- ----------------------------------------------------------------- -/

/-- Mirrors `rest.ImpersonationConfig` as used by the suite: the
impersonated user name and group list (`UserName`, `Groups`). -/
structure ImpersonationConfig where
  userName : String
  groups : List String
deriving DecidableEq

/-- Modelled from the spec: the part of the client configuration the suite
manipulates.  The real `rest.Config` (client-go) is not part of this
repository; per spec section 4.2 only the identity override matters here,
so the model keeps exactly the impersonation settings. -/
structure RestConfig where
  impersonate : ImpersonationConfig
deriving DecidableEq

/-- Modelled from the spec: `helper.H` from `pkg/common/helper`, which is
not under `src/`.  Per spec section 9 it is a shared mutable struct
holding ambient global client state whose identity is mutated in place
before each call; the model keeps the rest configuration, the
`ServiceAccount` field assigned by `asServiceAccount`, and the current
project name returned by `h.CurrentProject()`. -/
structure H where
  restConfig : RestConfig
  ServiceAccount : String
  CurrentProject : String
deriving DecidableEq

/-- Modelled from the spec: `(h *H).Impersonate(cfg)` from
`pkg/common/helper` (not under `src/`), which per spec section 9 mutates
the identity of the shared helper in place; in the state-passing model it
returns the updated helper. -/
def H.Impersonate (h : H) (cfg : ImpersonationConfig) : H :=
  { h with restConfig := { impersonate := cfg } }

/-- Modelled from the spec: `(h *H).GetConfig()` from `pkg/common/helper`
(not under `src/`): reads the current client configuration of the shared
helper. -/
def H.GetConfig (h : H) : RestConfig :=
  h.restConfig

/-- Modelled from the spec: the ResourceClient of spec section 4.1, the
value returned by `resources.New(h.GetConfig())`.  The client snapshots
the configuration it was built from. -/
structure Resources where
  config : RestConfig
deriving DecidableEq

/-- The empty impersonation configuration: empty principal and no groups.
client-go applies no impersonation override for it, so a client carrying
it acts with the ambient credential. -/
def ambientIdentity : ImpersonationConfig :=
  { userName := "", groups := [] }

/- ----------------------------------------------------------------- -/
/- Identity factory (asUser / asServiceAccount / asDedicatedAdmin)    -/
/- ----------------------------------------------------------------- -/

/-- The group computation at the head of `asUser`: when the user is
non-empty the two baseline markers are appended
(`groups = append(groups, "system:authenticated", "system:authenticated:oauth")`). -/
def effectiveGroups (user : String) (groups : List String) : List String :=
  if user ≠ "" then groups ++ ["system:authenticated", "system:authenticated:oauth"]
  else groups

/-- First shared-state access of `asUser`: the call
`h.Impersonate(rest.ImpersonationConfig{UserName: user, Groups: groups})`,
which overwrites the identity held by the shared helper. -/
def applyImpersonation (h : H) (user : String) (groups : List String) : H :=
  h.Impersonate { userName := user, groups := effectiveGroups user groups }

/-- Second shared-state access of `asUser`: the call
`resources.New(h.GetConfig())`, which reads the helper's current
configuration into a fresh client. -/
def buildClient (h : H) : Resources :=
  { config := h.GetConfig }

/-- `asUser(h, user, groups...)`: computes the effective groups, mutates
the shared helper via `Impersonate`, and builds a client from the
helper's configuration.  Returns the client together with the updated
shared state. -/
def asUser (h : H) (user : String) (groups : List String) : Resources × H :=
  let h2 := applyImpersonation h user groups
  (buildClient h2, h2)

/-- `asServiceAccount(h, sa)`: assigns `h.ServiceAccount = sa` on the
shared helper, then delegates to `asUser(h, sa)`. -/
def asServiceAccount (h : H) (sa : String) : Resources × H :=
  let h2 := { h with ServiceAccount := sa }
  asUser h2 sa []

/-- `asDedicatedAdmin(h)`: `asUser(h, "test-user@redhat.com", "dedicated-admins")`. -/
def asDedicatedAdmin (h : H) : Resources × H :=
  asUser h "test-user@redhat.com" ["dedicated-admins"]

/-- A concrete helper in its initial state, ambient identity, current
project `myproj`. -/
def h0 : H :=
  { restConfig := { impersonate := ambientIdentity },
    ServiceAccount := "",
    CurrentProject := "myproj" }

/- ----------------------------------------------------------------- -/
/- Claims C1 - C3                                                     -/
/- ----------------------------------------------------------------- -/

/-- Claim C1 (code_bug evaluation): the identity is applied as a
session-wide mutation of the shared helper, not as a per-call override,
so two clients derived from the same helper can interfere.  Conjunct 1:
under the interleaving mutate(alice); mutate(bob); read-for-alice, the
client built for alice carries principal `bob`.  Conjunct 2: `asUser`
mutates the shared helper.  Conjunct 3: `asServiceAccount` additionally
mutates the shared `ServiceAccount` field.  Conjunct 4: `asUser` is
exactly the two shared-state accesses in program order, so the
interleaving in conjunct 1 is an interleaving of two `asUser` calls. -/
theorem asUser_shared_identity_mutation :
    (buildClient (applyImpersonation (applyImpersonation h0 "alice" []) "bob" [])).config.impersonate.userName = "bob"
    ∧ (asUser h0 "alice" []).2 ≠ h0
    ∧ (asServiceAccount h0 "system:serviceaccount:a:b").2.ServiceAccount = "system:serviceaccount:a:b"
    ∧ ∀ (h : H) (user : String) (groups : List String),
        asUser h user groups =
          (buildClient (applyImpersonation h user groups), applyImpersonation h user groups) := by
  refine ⟨rfl, by decide, rfl, fun h user groups => rfl⟩

/-- Claim C2 (counterexample): when a baseline marker already appears in
the extra groups, the built client's group list contains it twice, not
exactly once — the union is not duplicate-collapsing. -/
theorem asUser_duplicate_marker_counterexample :
    List.count "system:authenticated"
        ((asUser h0 "alice" ["system:authenticated"]).1).config.impersonate.groups = 2 := by
  decide

/-- Claim C2 (amended): for a non-empty principal the client's group list
is `extraGroups ++ [system:authenticated, system:authenticated:oauth]` —
set-wise the union of the claim, with both markers present — but each
marker occurs once more than it occurs in `extraGroups`, so it is present
exactly once only when it is not already among the extra groups;
duplicates are not collapsed. -/
theorem asUser_effective_groups (h : H) (user : String) (gs : List String)
    (hu : user ≠ "") :
    ((asUser h user gs).1).config.impersonate.userName = user
    ∧ ((asUser h user gs).1).config.impersonate.groups
        = gs ++ ["system:authenticated", "system:authenticated:oauth"]
    ∧ "system:authenticated" ∈ ((asUser h user gs).1).config.impersonate.groups
    ∧ "system:authenticated:oauth" ∈ ((asUser h user gs).1).config.impersonate.groups
    ∧ List.count "system:authenticated" ((asUser h user gs).1).config.impersonate.groups
        = List.count "system:authenticated" gs + 1
    ∧ List.count "system:authenticated:oauth" ((asUser h user gs).1).config.impersonate.groups
        = List.count "system:authenticated:oauth" gs + 1 := by
  refine ⟨rfl, ?_, ?_, ?_, ?_, ?_⟩ <;>
    simp [asUser, applyImpersonation, buildClient, H.Impersonate, H.GetConfig,
      effectiveGroups, hu, List.count_append]

/-- Claim C2 (witness for the amended theorem) at the concrete input
`user = alice`, `extraGroups = [extra]`. -/
theorem asUser_effective_groups_witness :
    ("alice" ≠ "")
    ∧ (((asUser h0 "alice" ["extra"]).1).config.impersonate.userName = "alice"
       ∧ ((asUser h0 "alice" ["extra"]).1).config.impersonate.groups
           = ["extra"] ++ ["system:authenticated", "system:authenticated:oauth"]
       ∧ "system:authenticated" ∈ ((asUser h0 "alice" ["extra"]).1).config.impersonate.groups
       ∧ "system:authenticated:oauth" ∈ ((asUser h0 "alice" ["extra"]).1).config.impersonate.groups
       ∧ List.count "system:authenticated" ((asUser h0 "alice" ["extra"]).1).config.impersonate.groups
           = List.count "system:authenticated" ["extra"] + 1
       ∧ List.count "system:authenticated:oauth" ((asUser h0 "alice" ["extra"]).1).config.impersonate.groups
           = List.count "system:authenticated:oauth" ["extra"] + 1) :=
  ⟨by decide, asUser_effective_groups h0 "alice" ["extra"] (by decide)⟩

/-- Claim C3: for an empty principal the factory builds a client with the
ambient credential — the call made by the suite, `asUser(h, "")`, yields
the empty impersonation configuration (no impersonation override), and
for any extra groups the two baseline authenticated markers are not
added: the group list is exactly the given one and the principal stays
empty. -/
theorem asUser_empty_principal_ambient (h : H) (gs : List String) :
    ((asUser h "" []).1).config.impersonate = ambientIdentity
    ∧ ((asUser h "" gs).1).config.impersonate.userName = ""
    ∧ ((asUser h "" gs).1).config.impersonate.groups = gs
    ∧ effectiveGroups "" gs = gs := by
  refine ⟨rfl, rfl, rfl, rfl⟩

/- ----------------------------------------------------------------- -/
/- ConditionWaiter (wait.For over conditions.ResourceMatch)           -/
/- ----------------------------------------------------------------- -/

/-- Modelled from the spec: the result of one fetch of the target object
inside the ConditionWaiter of spec section 4.3.  The polling engine
itself (`wait.For` and `conditions.New(resources).ResourceMatch` from
`sigs.k8s.io/e2e-framework`, delegated to by `waitForDaemonSetAvailable`)
is not under `src/`. -/
inductive FetchResult (α : Type) where
  | ok (obj : α)
  | notFound
  | transientError
  | otherError
deriving DecidableEq

/-- Modelled from the spec: the Outcome type of spec section 3:
`Success(object) | Timeout | FatalError(cause)` (the transient case is
retried inside the waiter, so it never escapes as a result). -/
inductive Outcome (α : Type) where
  | success (obj : α)
  | timeout
  | fatalError
deriving DecidableEq

/-- True exactly on the `success` outcome. -/
def Outcome.isSuccess {α : Type} : Outcome α → Bool
  | Outcome.success _ => true
  | _ => false

/-- Modelled from the spec: the polling loop of the ConditionWaiter
(spec section 4.3), which is not under `src/`.  Poll `k` happens at
elapsed time `k * interval`; once the elapsed time exceeds the timeout
the waiter returns Timeout.  On a successful fetch the predicate is
evaluated: true returns Success, false sleeps one interval and retries.
A NotFoundError or a transient error is retried like predicate-false;
any other fetch error returns FatalError immediately.  The fuel argument
only bounds the recursion; `waitFor` supplies enough fuel that the
timeout check always fires first.  The second component of the result is
the elapsed time at which the waiter returned. -/
def waitForAux {α : Type} (pred : α → Bool) (timeout interval : Nat)
    (trace : Nat → FetchResult α) : Nat → Nat → Outcome α × Nat
  | 0, k => (Outcome.timeout, k * interval)
  | fuel + 1, k =>
    if timeout < k * interval then (Outcome.timeout, k * interval)
    else
      match trace k with
      | FetchResult.ok obj =>
        if pred obj then (Outcome.success obj, k * interval)
        else waitForAux pred timeout interval trace fuel (k + 1)
      | FetchResult.notFound => waitForAux pred timeout interval trace fuel (k + 1)
      | FetchResult.transientError => waitForAux pred timeout interval trace fuel (k + 1)
      | FetchResult.otherError => (Outcome.fatalError, k * interval)

/-- Modelled from the spec: `waitFor(spec)` of spec section 4.3.  The
trace gives the fetch result of each poll. -/
def waitFor {α : Type} (pred : α → Bool) (timeout interval : Nat)
    (trace : Nat → FetchResult α) : Outcome α × Nat :=
  waitForAux pred timeout interval trace (timeout + 2) 0

/- ----------------------------------------------------------------- -/
/- DaemonSet readiness (waitForDaemonSetAvailable)                    -/
/- ----------------------------------------------------------------- -/

/-- The status fields of `appsv1.DaemonSet` read by the suite.  They are
`int32` in the source; only equality between them is used, so they are
embedded as `Int`. -/
structure DaemonSetStatus where
  desiredNumberScheduled : Int
  currentNumberScheduled : Int
  numberReady : Int
  numberAvailable : Int
deriving DecidableEq

/-- The predicate closure passed to `ResourceMatch` inside
`waitForDaemonSetAvailable`:
`CurrentNumberScheduled == desired && NumberReady == desired && NumberAvailable == desired`. -/
def daemonSetReady (d : DaemonSetStatus) : Bool :=
  d.currentNumberScheduled == d.desiredNumberScheduled
  && d.numberReady == d.desiredNumberScheduled
  && d.numberAvailable == d.desiredNumberScheduled

/-- `waitForDaemonSetAvailable(resources, name, namespace)`: runs the
ConditionWaiter with the daemonset-readiness predicate against the
fetched daemonset status. -/
def waitForDaemonSetAvailable (timeout interval : Nat)
    (trace : Nat → FetchResult DaemonSetStatus) : Outcome DaemonSetStatus × Nat :=
  waitFor daemonSetReady timeout interval trace

/-- A fetch trace whose first poll reports the partial status
desired=3, current=3, ready=2, available=2 and whose later polls report
the fully ready status 3/3/3/3. -/
def partialThenReadyTrace : Nat → FetchResult DaemonSetStatus :=
  fun k =>
    if k = 0 then
      FetchResult.ok
        { desiredNumberScheduled := 3, currentNumberScheduled := 3,
          numberReady := 2, numberAvailable := 2 }
    else
      FetchResult.ok
        { desiredNumberScheduled := 3, currentNumberScheduled := 3,
          numberReady := 3, numberAvailable := 3 }

/-- Claim C4: the daemonset-readiness predicate holds iff current, ready
and available all equal desired; the partial status 3/3/2/2 is rejected
and, in the waiter, polling continues past it (the wait on
`partialThenReadyTrace` succeeds at the second poll, elapsed one
interval, with the fully ready status); the all-zero status with
desired = 0 is accepted as a legitimate success. -/
theorem daemonSetReady_correct :
    (∀ d : DaemonSetStatus,
       daemonSetReady d = true ↔
         (d.currentNumberScheduled = d.desiredNumberScheduled
          ∧ d.numberReady = d.desiredNumberScheduled
          ∧ d.numberAvailable = d.desiredNumberScheduled))
    ∧ daemonSetReady
        { desiredNumberScheduled := 3, currentNumberScheduled := 3,
          numberReady := 2, numberAvailable := 2 } = false
    ∧ daemonSetReady
        { desiredNumberScheduled := 0, currentNumberScheduled := 0,
          numberReady := 0, numberAvailable := 0 } = true
    ∧ (waitForDaemonSetAvailable 10 1 partialThenReadyTrace).1
        = Outcome.success
            { desiredNumberScheduled := 3, currentNumberScheduled := 3,
              numberReady := 3, numberAvailable := 3 }
    ∧ (waitForDaemonSetAvailable 10 1 partialThenReadyTrace).2 = 1 := by
  refine ⟨?_, by decide, by decide, by decide, by decide⟩
  intro d
  simp [daemonSetReady, Bool.and_eq_true, beq_iff_eq, and_assoc]

/- ----------------------------------------------------------------- -/
/- Claims C5 and C6                                                   -/
/- ----------------------------------------------------------------- -/

/-- Claim C5: before the deadline, a NotFoundError fetch makes the
waiter retry at the next poll — the same continuation as a fetched
object whose predicate is false — a transient fetch error likewise
retries, and only the remaining kind of fetch error terminates polling
immediately with FatalError. -/
theorem waitFor_notFound_retries {α : Type} (pred : α → Bool)
    (timeout interval fuel k : Nat)
    (traceNF traceOk traceTr traceErr : Nat → FetchResult α) (obj : α)
    (hk : ¬ timeout < k * interval)
    (hNF : traceNF k = FetchResult.notFound)
    (hOk : traceOk k = FetchResult.ok obj)
    (hPred : pred obj = false)
    (hTr : traceTr k = FetchResult.transientError)
    (hErr : traceErr k = FetchResult.otherError) :
    waitForAux pred timeout interval traceNF (fuel + 1) k
        = waitForAux pred timeout interval traceNF fuel (k + 1)
    ∧ waitForAux pred timeout interval traceOk (fuel + 1) k
        = waitForAux pred timeout interval traceOk fuel (k + 1)
    ∧ waitForAux pred timeout interval traceTr (fuel + 1) k
        = waitForAux pred timeout interval traceTr fuel (k + 1)
    ∧ waitForAux pred timeout interval traceErr (fuel + 1) k
        = (Outcome.fatalError, k * interval) := by
  refine ⟨?_, ?_, ?_, ?_⟩ <;>
    simp [waitForAux, hk, hNF, hOk, hPred, hTr, hErr]

/-- The constantly false predicate on naturals, for witnesses. -/
def falsePred : Nat → Bool := fun _ => false

/-- A fetch trace that always reports NotFound. -/
def notFoundTrace : Nat → FetchResult Nat := fun _ => FetchResult.notFound

/-- A fetch trace that always returns the object `0`. -/
def okZeroTrace : Nat → FetchResult Nat := fun _ => FetchResult.ok 0

/-- A fetch trace that always fails with a transient error. -/
def transientTrace : Nat → FetchResult Nat := fun _ => FetchResult.transientError

/-- A fetch trace that always fails with a non-transient, non-NotFound
error. -/
def otherTrace : Nat → FetchResult Nat := fun _ => FetchResult.otherError

/-- Claim C5 (witness): the retry and fatal-error behaviour at the
concrete input timeout 5, interval 1, poll 0. -/
theorem waitFor_notFound_retries_witness :
    (¬ (5 : Nat) < 0 * 1)
    ∧ (waitForAux falsePred 5 1 notFoundTrace (0 + 1) 0
          = waitForAux falsePred 5 1 notFoundTrace 0 (0 + 1)
       ∧ waitForAux falsePred 5 1 okZeroTrace (0 + 1) 0
          = waitForAux falsePred 5 1 okZeroTrace 0 (0 + 1)
       ∧ waitForAux falsePred 5 1 transientTrace (0 + 1) 0
          = waitForAux falsePred 5 1 transientTrace 0 (0 + 1)
       ∧ waitForAux falsePred 5 1 otherTrace (0 + 1) 0
          = (Outcome.fatalError, 0 * 1)) :=
  ⟨by decide,
   waitFor_notFound_retries falsePred 5 1 0 0
     notFoundTrace okZeroTrace transientTrace otherTrace 0
     (by decide) rfl rfl rfl rfl rfl⟩

/-- Auxiliary timeout lemma for the polling loop: with a positive poll
interval and a trace that never satisfies the predicate and never fails
fatally, any run with enough fuel returns Timeout at an elapsed time
strictly beyond the timeout. -/
theorem waitForAux_never_timeout {α : Type} (pred : α → Bool)
    (timeout interval : Nat) (trace : Nat → FetchResult α)
    (hi : 1 ≤ interval)
    (hnever : ∀ k obj, trace k = FetchResult.ok obj → pred obj = false)
    (hnofatal : ∀ k, trace k ≠ FetchResult.otherError) :
    ∀ fuel k, timeout < fuel + k →
      (waitForAux pred timeout interval trace fuel k).1 = Outcome.timeout
      ∧ timeout < (waitForAux pred timeout interval trace fuel k).2 := by
  intro fuel
  induction fuel with
  | zero =>
    intro k hk
    refine ⟨rfl, ?_⟩
    have h1 : timeout < k := by omega
    have h2 : k ≤ k * interval := by
      calc k = k * 1 := (Nat.mul_one k).symm
        _ ≤ k * interval := Nat.mul_le_mul_left k hi
    show timeout < k * interval
    omega
  | succ fuel ih =>
    intro k hk
    by_cases hto : timeout < k * interval
    · constructor <;> simp [waitForAux, hto]
    · have hrec := ih (k + 1) (by omega)
      cases htr : trace k with
      | ok obj =>
        have hp := hnever k obj htr
        simpa [waitForAux, hto, htr, hp] using hrec
      | notFound => simpa [waitForAux, hto, htr] using hrec
      | transientError => simpa [waitForAux, hto, htr] using hrec
      | otherError => exact absurd htr (hnofatal k)

/-- Claim C6: with a positive poll interval, if the predicate never
becomes true along the fetch trace (and no fetch fails fatally), the
waiter terminates with the Timeout outcome, and the elapsed time at
which it returns strictly exceeds the timeout — never before it. -/
theorem waitFor_timeout {α : Type} (pred : α → Bool)
    (timeout interval : Nat) (trace : Nat → FetchResult α)
    (hi : 1 ≤ interval)
    (hnever : ∀ k obj, trace k = FetchResult.ok obj → pred obj = false)
    (hnofatal : ∀ k, trace k ≠ FetchResult.otherError) :
    (waitFor pred timeout interval trace).1 = Outcome.timeout
    ∧ timeout < (waitFor pred timeout interval trace).2 :=
  waitForAux_never_timeout pred timeout interval trace hi hnever hnofatal
    (timeout + 2) 0 (by omega)

/-- Claim C6 (witness): a never-true predicate with timeout 3 and
interval 1 yields Timeout at elapsed time beyond 3. -/
theorem waitFor_timeout_witness :
    ((1 : Nat) ≤ 1)
    ∧ ((waitFor falsePred 3 1 notFoundTrace).1 = Outcome.timeout
       ∧ 3 < (waitFor falsePred 3 1 notFoundTrace).2) :=
  ⟨by decide,
   waitFor_timeout falsePred 3 1 notFoundTrace (by decide)
     (fun k obj hobj => FetchResult.noConfusion hobj)
     (fun k hobj => FetchResult.noConfusion hobj)⟩

/- ----------------------------------------------------------------- -/
/- Scenario embeddings                                                -/
/- ----------------------------------------------------------------- -/

/-- The fixed resource-name constants of the suite's const block. -/
def namespaceName : String := "openshift-validation-webhook"

/-- Service name from the const block. -/
def serviceName : String := "validation-webhook"

/-- DaemonSet name from the const block. -/
def daemonsetName : String := "validation-webhook"

/-- ConfigMap name from the const block. -/
def configMapName : String := "webhook-cert"

/-- Secret name from the const block. -/
def secretName : String := "webhook-cert"

/-- Privileged test namespace from the pod-scheduling Describe block. -/
def privilegedNamespace : String := "openshift-backplane"

/-- Unprivileged test namespace from the pod-scheduling Describe block. -/
def unprivilegedNamespace : String := "openshift-logging"

/-- Modelled from the spec: the error taxonomy of spec section 7 for the
remote create/get/delete calls (`apierrors` from
`k8s.io/apimachinery`, not under `src/`): NotFound, Forbidden, Conflict
and every other kind. -/
inductive ApiError where
  | notFound
  | forbidden
  | conflict
  | other
deriving DecidableEq

/-- Mirrors `apierrors.IsForbidden(err)` applied to the create result:
true exactly when an error occurred and it is Forbidden (a nil error is
not forbidden). -/
def isForbidden : Option ApiError → Bool
  | some ApiError.forbidden => true
  | _ => false

/-- Mirrors gomega's `HaveOccurred` on an error value: true exactly when
the call returned an error. -/
def hasOccurred : Option ApiError → Bool
  | some _ => true
  | none => false

/-- The object kinds the suite touches. -/
inductive Kind where
  | namespaceKind
  | configMap
  | secret
  | service
  | daemonSet
  | pod
deriving DecidableEq

/-- Modelled from the spec: the ResourceRef of spec section 3, the
`(kind, name, namespace)` triple of a `client.Get` call. -/
structure GetReq where
  kind : Kind
  name : String
  ns : String
deriving DecidableEq

/-- The four single `Get` calls of the existence scenario
(`exists and is running`), in program order: namespace, configmap,
secret, service, each addressed inside the webhook namespace. -/
def existenceGets : List GetReq :=
  [{ kind := Kind.namespaceKind, name := namespaceName, ns := namespaceName },
   { kind := Kind.configMap, name := configMapName, ns := namespaceName },
   { kind := Kind.secret, name := secretName, ns := namespaceName },
   { kind := Kind.service, name := serviceName, ns := namespaceName }]

/-- Runs a sequence of `Get` calls against a get oracle, stopping at the
first error, as the chain of `Expect(err).ShouldNot(HaveOccurred())`
assertions does. -/
def runGets (get : GetReq → Option ApiError) : List GetReq → Option ApiError
  | [] => none
  | r :: rs =>
    match get r with
    | some e => some e
    | none => runGets get rs

/-- The `exists and is running` scenario: builds the ambient client with
`asUser(h, "")`, issues the four `Get` calls in order failing on any
error, then checks the daemonset via `waitForDaemonSetAvailable`; the
scenario passes iff every get succeeds and the wait ends in Success. -/
def existsAndIsRunning (h : H) (get : ImpersonationConfig → GetReq → Option ApiError)
    (dsTrace : Nat → FetchResult DaemonSetStatus) (timeout interval : Nat) : Bool :=
  match runGets (get ((asUser h "" []).1).config.impersonate) existenceGets with
  | some _ => false
  | none => ((waitForDaemonSetAvailable timeout interval dsTrace).1).isSuccess

/-- Containers of the test pod. -/
structure Container where
  name : String
  image : String
deriving DecidableEq

/-- Tolerations of the test pod (`Key`, `Value`, `Effect`). -/
structure Toleration where
  key : String
  value : String
  effect : String
deriving DecidableEq

/-- The fields of `v1.Pod` the suite sets or reads. -/
structure Pod where
  name : String
  ns : String
  containers : List Container
  tolerations : List Toleration
deriving DecidableEq

/-- `newTestPod(name)`: a pod with the given (per-run randomized) name,
one ubi-minimal container, and the master and infra node-role
tolerations. -/
def newTestPod (name : String) : Pod :=
  { name := name,
    ns := "",
    containers :=
      [{ name := "test", image := "registry.access.redhat.com/ubi8/ubi-minimal" }],
    tolerations :=
      [{ key := "node-role.kubernetes.io/master", value := "toleration-key-value",
         effect := "NoSchedule" },
       { key := "node-role.kubernetes.io/infra", value := "toleration-key-value2",
         effect := "NoSchedule" }] }

/-- `withNamespace(pod, namespace)`: sets the pod's namespace and returns
the pod.  In Go this mutates the pointed-to pod in place and returns the
same pointer; in the functional embedding every call site threads the
updated value back into the shared `pod` variable. -/
def withNamespace (pod : Pod) (ns : String) : Pod :=
  { pod with ns := ns }

/-- A heap of pods addressed by reference, to state the in-place nature
of `withNamespace`: the call updates the pod stored at the given
reference and hands back the same reference. -/
def withNamespaceInPlace (heap : Nat → Pod) (r : Nat) (ns : String) :
    (Nat → Pod) × Nat :=
  (fun i => if i = r then withNamespace (heap r) ns else heap i, r)

/-- The result of one authorization test body: whether every assertion
passed, the create attempts issued as (identity, pod) pairs in order,
and the final values of the shared `pod` variable and helper. -/
structure ItOutcome where
  passed : Bool
  attempts : List (ImpersonationConfig × Pod)
  finalPod : Pod
  finalH : H
deriving DecidableEq

/-- The `are blocked` test body: sets the pod's namespace to the
privileged one, creates as dedicated-admin expecting Forbidden, then as
user `majora` expecting Forbidden, then — after switching the shared pod
to the unprivileged namespace — as `majora` again expecting Forbidden.
A failed `Expect` aborts the body, so later creates are not attempted. -/
def areBlocked (h : H) (pod : Pod)
    (create : ImpersonationConfig → Pod → Option ApiError) : ItOutcome :=
  let pod := withNamespace pod privilegedNamespace
  let r1 := asDedicatedAdmin h
  let e1 := create r1.1.config.impersonate pod
  if isForbidden e1 then
    let r2 := asUser r1.2 "majora" []
    let e2 := create r2.1.config.impersonate pod
    if isForbidden e2 then
      let pod2 := withNamespace pod unprivilegedNamespace
      let e3 := create r2.1.config.impersonate pod2
      { passed := isForbidden e3,
        attempts := [(r1.1.config.impersonate, pod), (r2.1.config.impersonate, pod),
                     (r2.1.config.impersonate, pod2)],
        finalPod := pod2, finalH := r2.2 }
    else
      { passed := false,
        attempts := [(r1.1.config.impersonate, pod), (r2.1.config.impersonate, pod)],
        finalPod := pod, finalH := r2.2 }
  else
    { passed := false,
      attempts := [(r1.1.config.impersonate, pod)],
      finalPod := pod, finalH := r1.2 }

/-- The `are allowed` test body: builds the
`system:serviceaccount:<current project>:dedicated-admin-project`
service-account client, sets the shared pod's namespace to the
privileged one and creates it, expecting no error. -/
def areAllowed (h : H) (pod : Pod)
    (create : ImpersonationConfig → Pod → Option ApiError) : ItOutcome :=
  let r := asServiceAccount h
    ("system:serviceaccount:" ++ h.CurrentProject ++ ":dedicated-admin-project")
  let pod2 := withNamespace pod privilegedNamespace
  let e := create r.1.config.impersonate pod2
  { passed := !hasOccurred e,
    attempts := [(r.1.config.impersonate, pod2)],
    finalPod := pod2, finalH := r.2 }

/-- The result of the `AfterEach` cleanup: whether it passed, the
identity the delete was issued under, and the pod it targeted. -/
structure CleanupOutcome where
  passed : Bool
  deleteIdentity : ImpersonationConfig
  deleteTarget : Pod
deriving DecidableEq

/-- The `AfterEach` cleanup body, run by ginkgo after every
authorization test regardless of its outcome (it takes no create result):
`asUser(h, "").Delete(ctx, pod)`, ignoring a NotFound error and failing
on any other error. -/
def afterEach (h : H) (pod : Pod)
    (del : ImpersonationConfig → Pod → Option ApiError) : CleanupOutcome :=
  let client := (asUser h "" []).1
  let e := del client.config.impersonate pod
  { passed :=
      match e with
      | some ApiError.notFound => true
      | some _ => false
      | none => true,
    deleteIdentity := client.config.impersonate,
    deleteTarget := pod }

/-- The identity `asDedicatedAdmin` impersonates. -/
def dedicatedAdminIdentity : ImpersonationConfig :=
  { userName := "test-user@redhat.com",
    groups := ["dedicated-admins", "system:authenticated", "system:authenticated:oauth"] }

/-- The arbitrary-user identity the blocked scenario impersonates. -/
def majoraIdentity : ImpersonationConfig :=
  { userName := "majora",
    groups := ["system:authenticated", "system:authenticated:oauth"] }

/-- The admin-project service-account identity for a given project. -/
def saIdentity (project : String) : ImpersonationConfig :=
  { userName := "system:serviceaccount:" ++ project ++ ":dedicated-admin-project",
    groups := ["system:authenticated", "system:authenticated:oauth"] }

/-- A create/delete oracle that rejects everything as Forbidden — the
responses the blocked scenario expects. -/
def forbidAll : ImpersonationConfig → Pod → Option ApiError :=
  fun _ _ => some ApiError.forbidden

/-- A create/delete oracle that accepts everything. -/
def allowAll : ImpersonationConfig → Pod → Option ApiError :=
  fun _ _ => none

/-- A get oracle that reports every object as NotFound. -/
def allNotFound : ImpersonationConfig → GetReq → Option ApiError :=
  fun _ _ => some ApiError.notFound

/-- A daemonset fetch trace that always reports the all-zero status. -/
def zeroStatusTrace : Nat → FetchResult DaemonSetStatus :=
  fun _ =>
    FetchResult.ok
      { desiredNumberScheduled := 0, currentNumberScheduled := 0,
        numberReady := 0, numberAvailable := 0 }

/- ----------------------------------------------------------------- -/
/- Helper lemmas for the scenario claims                              -/
/- ----------------------------------------------------------------- -/

/-- `isForbidden` holds exactly on the Forbidden error. -/
theorem isForbidden_eq_true (e : Option ApiError) :
    isForbidden e = true ↔ e = some ApiError.forbidden := by
  cases e with
  | none => simp [isForbidden]
  | some err => cases err <;> simp [isForbidden]

/-- `hasOccurred` is false exactly on a nil error. -/
theorem hasOccurred_eq_false (e : Option ApiError) :
    hasOccurred e = false ↔ e = none := by
  cases e <;> simp [hasOccurred]

/-- A run of `Get` calls returns no error iff every call in the list
succeeds. -/
theorem runGets_eq_none (get : GetReq → Option ApiError) :
    ∀ l : List GetReq,
      runGets get l = none ↔ l.all (fun r => (get r).isNone) = true := by
  intro l
  induction l with
  | nil => simp [runGets]
  | cons r rs ih => cases hg : get r <;> simp [runGets, hg, ih]

/-- The existence scenario as the conjunction of its two phases: the
gets (issued under the ambient identity) and the daemonset wait. -/
theorem existsAndIsRunning_eq (h : H)
    (get : ImpersonationConfig → GetReq → Option ApiError)
    (dsTrace : Nat → FetchResult DaemonSetStatus) (timeout interval : Nat) :
    existsAndIsRunning h get dsTrace timeout interval =
      ((runGets (get ambientIdentity) existenceGets).isNone
        && ((waitForDaemonSetAvailable timeout interval dsTrace).1).isSuccess) := by
  show (match runGets (get ambientIdentity) existenceGets with
        | some _ => false
        | none => ((waitForDaemonSetAvailable timeout interval dsTrace).1).isSuccess) = _
  cases runGets (get ambientIdentity) existenceGets <;> simp [Option.isNone]

/-- The pass condition of the `are blocked` body, with the identities
and pod snapshots of the three creates spelled out. -/
theorem areBlocked_passed (h : H) (pod : Pod)
    (create : ImpersonationConfig → Pod → Option ApiError) :
    (areBlocked h pod create).passed =
      (isForbidden (create dedicatedAdminIdentity (withNamespace pod privilegedNamespace))
       && isForbidden (create majoraIdentity (withNamespace pod privilegedNamespace))
       && isForbidden (create majoraIdentity
            (withNamespace (withNamespace pod privilegedNamespace) unprivilegedNamespace))) := by
  simp only [areBlocked]
  rw [show (asDedicatedAdmin h).1.config.impersonate = dedicatedAdminIdentity from rfl,
      show (asUser (asDedicatedAdmin h).2 "majora" []).1.config.impersonate
        = majoraIdentity from rfl]
  cases h1 : isForbidden (create dedicatedAdminIdentity (withNamespace pod privilegedNamespace)) <;>
    cases h2 : isForbidden (create majoraIdentity (withNamespace pod privilegedNamespace)) <;>
      simp [h1, h2]

/-- The fully-qualified admin-project service-account name is never the
empty string, so `asUser` treats it as a real principal. -/
theorem saName_ne_empty (p : String) :
    "system:serviceaccount:" ++ p ++ ":dedicated-admin-project" ≠ "" := by
  intro hc
  have h1 := congrArg String.length hc
  simp [String.length_append] at h1
  exact absurd h1.2 (by decide)

/-- The identity carried by the client the `are allowed` body builds. -/
theorem asServiceAccount_identity (h : H) :
    ((asServiceAccount h
        ("system:serviceaccount:" ++ h.CurrentProject ++ ":dedicated-admin-project")).1).config.impersonate
      = saIdentity h.CurrentProject := by
  simp only [asServiceAccount, asUser, applyImpersonation, buildClient,
    H.Impersonate, H.GetConfig, effectiveGroups, saIdentity]
  rw [if_pos (saName_ne_empty h.CurrentProject)]
  rfl

/-- The single create attempt of the `are allowed` body, with its
identity spelled out. -/
theorem areAllowed_attempts (h : H) (pod : Pod)
    (create : ImpersonationConfig → Pod → Option ApiError) :
    (areAllowed h pod create).attempts =
      [(saIdentity h.CurrentProject, withNamespace pod privilegedNamespace)] := by
  simp only [areAllowed]
  rw [asServiceAccount_identity]

/-- The pass condition of the `are allowed` body. -/
theorem areAllowed_passed (h : H) (pod : Pod)
    (create : ImpersonationConfig → Pod → Option ApiError) :
    (areAllowed h pod create).passed = true ↔
      create (saIdentity h.CurrentProject) (withNamespace pod privilegedNamespace) = none := by
  simp only [areAllowed]
  rw [asServiceAccount_identity]
  cases hE : create (saIdentity h.CurrentProject) (withNamespace pod privilegedNamespace) <;>
    simp [hasOccurred, hE]

/- ----------------------------------------------------------------- -/
/- Claims C7 - C10                                                    -/
/- ----------------------------------------------------------------- -/

/-- Claim C7: the existence scenario passes iff each of the four fixed
`Get` calls — namespace `openshift-validation-webhook`, configmap
`webhook-cert`, secret `webhook-cert`, service `validation-webhook`,
issued one single time each under the ambient identity — succeeds and
the daemonset `validation-webhook` wait (performed through the
ConditionWaiter rather than a single get) ends in Success; any
NotFoundError from a get is a hard scenario failure, as the concrete
all-NotFound oracle shows. -/
theorem existence_scenario_correct :
    (∀ (h : H) (get : ImpersonationConfig → GetReq → Option ApiError)
       (dsTrace : Nat → FetchResult DaemonSetStatus) (timeout interval : Nat),
       existsAndIsRunning h get dsTrace timeout interval = true ↔
         (existenceGets.all (fun r => (get ambientIdentity r).isNone) = true
          ∧ ((waitForDaemonSetAvailable timeout interval dsTrace).1).isSuccess = true))
    ∧ existenceGets =
        [{ kind := Kind.namespaceKind, name := "openshift-validation-webhook",
           ns := "openshift-validation-webhook" },
         { kind := Kind.configMap, name := "webhook-cert",
           ns := "openshift-validation-webhook" },
         { kind := Kind.secret, name := "webhook-cert",
           ns := "openshift-validation-webhook" },
         { kind := Kind.service, name := "validation-webhook",
           ns := "openshift-validation-webhook" }]
    ∧ (∀ h : H, ((asUser h "" []).1).config.impersonate = ambientIdentity)
    ∧ existsAndIsRunning h0 allNotFound zeroStatusTrace 5 1 = false := by
  refine ⟨?_, rfl, fun h => rfl, by decide⟩
  intro h get dsTrace timeout interval
  rw [existsAndIsRunning_eq, Bool.and_eq_true, Option.isNone_iff_eq_none,
    runGets_eq_none]

/-- Claim C8: the blocked scenario passes iff pod create is Forbidden
under all three identities — dedicated-admin impersonation in the
privileged namespace, the arbitrary user `majora` in the privileged
namespace, and `majora` in the unprivileged namespace — and on the
expected responses it issues exactly those three attempts; the allowed
scenario passes iff create succeeds under the
`system:serviceaccount:<project>:dedicated-admin-project` identity in
the privileged namespace, its single attempt carrying that identity; the
test pod carries the per-run generated name and the master and infra
node-role tolerations. -/
theorem authorization_scenario_correct :
    (∀ (h : H) (n : String) (create : ImpersonationConfig → Pod → Option ApiError),
       (areBlocked h (newTestPod n) create).passed = true ↔
         (create dedicatedAdminIdentity
            (withNamespace (newTestPod n) privilegedNamespace) = some ApiError.forbidden
          ∧ create majoraIdentity
              (withNamespace (newTestPod n) privilegedNamespace) = some ApiError.forbidden
          ∧ create majoraIdentity
              (withNamespace (withNamespace (newTestPod n) privilegedNamespace)
                unprivilegedNamespace) = some ApiError.forbidden))
    ∧ (∀ (h : H) (n : String),
        (areBlocked h (newTestPod n) forbidAll).attempts =
          [(dedicatedAdminIdentity, withNamespace (newTestPod n) privilegedNamespace),
           (majoraIdentity, withNamespace (newTestPod n) privilegedNamespace),
           (majoraIdentity,
            withNamespace (withNamespace (newTestPod n) privilegedNamespace)
              unprivilegedNamespace)])
    ∧ (∀ (h : H) (n : String) (create : ImpersonationConfig → Pod → Option ApiError),
        (areAllowed h (newTestPod n) create).passed = true ↔
          create (saIdentity h.CurrentProject)
            (withNamespace (newTestPod n) privilegedNamespace) = none)
    ∧ (∀ (h : H) (n : String) (create : ImpersonationConfig → Pod → Option ApiError),
        (areAllowed h (newTestPod n) create).attempts =
          [(saIdentity h.CurrentProject,
            withNamespace (newTestPod n) privilegedNamespace)])
    ∧ (∀ n : String, (newTestPod n).name = n)
    ∧ (∀ n : String, (newTestPod n).tolerations =
        [{ key := "node-role.kubernetes.io/master", value := "toleration-key-value",
           effect := "NoSchedule" },
         { key := "node-role.kubernetes.io/infra", value := "toleration-key-value2",
           effect := "NoSchedule" }]) := by
  refine ⟨?_, fun h n => rfl, ?_, ?_, fun n => rfl, fun n => rfl⟩
  · intro h n create
    rw [areBlocked_passed]
    simp [Bool.and_eq_true, isForbidden_eq_true, and_assoc]
  · intro h n create
    exact areAllowed_passed h (newTestPod n) create
  · intro h n create
    exact areAllowed_attempts h (newTestPod n) create

/-- Claim C9 (counterexample): in the allowed scenario the pod is
created under the admin-project service-account identity, but the
cleanup delete is issued under the ambient (empty) identity — not by the
identity that created the pod. -/
theorem cleanup_identity_counterexample :
    (areAllowed h0 (newTestPod "osde2e-test") allowAll).attempts.map Prod.fst
        = [saIdentity "myproj"]
    ∧ (afterEach (areAllowed h0 (newTestPod "osde2e-test") allowAll).finalH
         (areAllowed h0 (newTestPod "osde2e-test") allowAll).finalPod
         allowAll).deleteIdentity
        ≠ saIdentity "myproj" := by
  refine ⟨by decide, by decide⟩

/-- Claim C9 (amended): after each authorization test the cleanup
attempts a delete of the (final) test pod regardless of the create
outcome — the `AfterEach` body takes no create result — but it is
performed by the ambient, non-impersonating client, not by the identity
that created the pod; a NotFoundError from that delete is ignored and
the cleanup passes exactly when the delete succeeds or reports NotFound,
every other delete error failing the test. -/
theorem afterEach_cleanup_behavior (h : H) (pod : Pod)
    (del : ImpersonationConfig → Pod → Option ApiError) :
    (afterEach h pod del).deleteIdentity = ambientIdentity
    ∧ (afterEach h pod del).deleteTarget = pod
    ∧ ((afterEach h pod del).passed = true ↔
        (del ambientIdentity pod = none
         ∨ del ambientIdentity pod = some ApiError.notFound)) := by
  refine ⟨rfl, rfl, ?_⟩
  show (match del ambientIdentity pod with
        | some ApiError.notFound => true
        | some _ => false
        | none => true) = true ↔ _
  cases hE : del ambientIdentity pod with
  | none => simp
  | some err => cases err <;> simp

/-- Claim C10: `withNamespace` updates exactly the namespace field of
the pod stored at the given reference and returns the same reference
(the same pod object), leaving every other field and every other pod
unchanged; consequently the shared pod variable ends the blocked body in
the unprivileged namespace — the last namespace assigned — and the
allowed body in the privileged one, and the cleanup delete targets the
pod in exactly that namespace. -/
theorem withNamespace_frame_and_cleanup_target :
    (∀ (heap : Nat → Pod) (r : Nat) (ns2 : String),
       (withNamespaceInPlace heap r ns2).2 = r)
    ∧ (∀ (heap : Nat → Pod) (r : Nat) (ns2 : String) (i : Nat),
        (withNamespaceInPlace heap r ns2).1 i
          = if i = r then withNamespace (heap r) ns2 else heap i)
    ∧ (∀ (pod : Pod) (ns2 : String),
        (withNamespace pod ns2).ns = ns2
        ∧ (withNamespace pod ns2).name = pod.name
        ∧ (withNamespace pod ns2).containers = pod.containers
        ∧ (withNamespace pod ns2).tolerations = pod.tolerations)
    ∧ (∀ (h : H) (n : String),
        (areBlocked h (newTestPod n) forbidAll).finalPod
          = withNamespace (withNamespace (newTestPod n) privilegedNamespace)
              unprivilegedNamespace
        ∧ (areBlocked h (newTestPod n) forbidAll).finalPod.ns = unprivilegedNamespace)
    ∧ (∀ (h : H) (pod : Pod) (del : ImpersonationConfig → Pod → Option ApiError),
        (afterEach h pod del).deleteTarget = pod)
    ∧ (∀ (h h2 : H) (n : String) (del : ImpersonationConfig → Pod → Option ApiError),
        (afterEach h2 (areBlocked h (newTestPod n) forbidAll).finalPod del).deleteTarget.ns
          = unprivilegedNamespace)
    ∧ (∀ (h : H) (n : String) (create : ImpersonationConfig → Pod → Option ApiError),
        (areAllowed h (newTestPod n) create).finalPod.ns = privilegedNamespace) := by
  exact ⟨fun heap r ns2 => rfl, fun heap r ns2 i => rfl,
    fun pod ns2 => ⟨rfl, rfl, rfl, rfl⟩,
    fun h n => ⟨rfl, rfl⟩,
    fun h pod del => rfl,
    fun h h2 n del => rfl,
    fun h n create => rfl⟩

end Webhooks
